import Mathlib

/-!
Verification of the MarkDash API (a Deno/Oak habit-tracking service backed by
Deno KV) against its natural-language specification.

The development shallowly embeds the repository's data-access layer:

* `src/types.ts` — the entity records (`User`, `Board`, `Log`, `Notification`,
  `JWTPayload`);
* `src/utils/kv.ts` — the key-value store adapter (composite string-tuple
  keys, `get`/`set`/`delete`/`list`-by-prefix);
* `src/utils/crypto.ts` — token issue/verify and password hashing (the
  underlying `djwt`/`bcrypt` library calls are external dependencies and are
  modelled from the spec);
* `src/middleware/authMiddleware.ts` — the bearer-token authorization gate;
* the route handlers in `src/routes/{auth,boards,logs,notify}.ts`.

Effectful TS handlers become pure functions taking the store, the
authenticated identity, the (already parsed) request body fields and the
current wall-clock values as arguments, and returning the new store together
with the HTTP status and response payload.  `Deno.Kv.list({prefix})` returns
entries whose key strictly extends the given component prefix; the store is
modelled as an association list with unique keys (writes replace in place).
JS falsy-checks on optional string body fields (`undefined` or `""`) are
modelled on `Option String`.
-/

set_option linter.unusedVariables false

namespace MarkDash

/-! ## Data model (src/types.ts) -/

/-- Record `User` from src/types.ts. -/
structure User where
  id : String
  username : String
  passwordHash : String
  createdAt : String
deriving Repr, DecidableEq

/-- Record `Board` from src/types.ts.  `visibility` and `schedule` are string
unions in TS ("private" | "public", "daily" | "weekly" | "custom") and are
kept as strings, as the code only ever compares them to literals. -/
structure Board where
  id : String
  userId : String
  title : String
  markdown : String
  visibility : String
  schedule : String
  resetTime : String
  createdAt : String
  updatedAt : String
deriving Repr, DecidableEq

/-- Record `LogAction` from src/types.ts. -/
structure LogAction where
  type : String
  task : Option String
  time : String
deriving Repr, DecidableEq

/-- Record `Log` from src/types.ts. -/
structure Log where
  id : String
  boardId : String
  userId : String
  date : String
  completedAt : String
  actions : List LogAction
deriving Repr, DecidableEq

/-- Record `Notification` from src/types.ts. -/
structure Notification where
  id : String
  boardId : String
  userId : String
  message : String
  time : String
  dismissed : Bool
deriving Repr, DecidableEq

/-- Record `JWTPayload` from src/types.ts; `exp` is epoch seconds. -/
structure JWTPayload where
  userId : String
  username : String
  exp : Nat
deriving Repr, DecidableEq

/-! ## Key-value store (the Deno KV adapter of src/utils/kv.ts)

Keys are tuples of strings (e.g. `["board", userId, boardId]`).  The store
keeps at most one entry per key; `kvSet` replaces in place, and
`kvList pfx` yields the entries whose key strictly extends `pfx`
(`Deno.Kv.list({prefix: pfx})` excludes a key equal to the prefix itself).
Entry order in the model is list order; no settled claim depends on the
relative order of distinct keys in a scan. -/

/-- Values storable in the KV store: entity records, plus the bare id
string kept under the `user_by_username` secondary index. -/
inductive Value where
  | user (u : User)
  | str (s : String)
  | board (b : Board)
  | log (l : Log)
  | notif (n : Notification)
deriving Repr, DecidableEq

instance : Inhabited Value := ⟨Value.str ""⟩

abbrev Key := List String

abbrev Store := List (Key × Value)

instance : Inhabited (Key × Value) := ⟨([], Value.str "")⟩

/-- Operation `kv.get(key).value`: `null` (here `none`) when absent. -/
def kvGet : Store → Key → Option Value
  | [], _ => none
  | e :: st, k => if e.1 = k then some e.2 else kvGet st k

/-- Operation `kv.delete(key)`. -/
def kvDelete : Store → Key → Store
  | [], _ => []
  | e :: st, k => if e.1 = k then kvDelete st k else e :: kvDelete st k

/-- Operation `kv.set(key, value)`: replace the entry at `key`, or add one. -/
def kvSet : Store → Key → Value → Store
  | [], k, v => [(k, v)]
  | e :: st, k, v => if e.1 = k then (k, v) :: kvDelete st k else e :: kvSet st k v

/-- Operation `kv.list({prefix: pfx})`: entries whose key strictly extends `pfx`. -/
def kvList : Store → Key → List (Key × Value)
  | [], _ => []
  | e :: st, pfx =>
    if pfx.isPrefixOf e.1 ∧ pfx.length < e.1.length then e :: kvList st pfx
    else kvList st pfx

/-- Number of entries stored under a given key (used to state the
"one record, never two" part of the log-upsert contract). -/
def countKey (st : Store) (k : Key) : Nat :=
  (st.filter (fun e => e.1 = k)).length

/-! ## Typed accessors (src/utils/kv.ts)

Each accessor is keyed exactly as in kv.ts: users at `["user", id]` with a
secondary index `["user_by_username", username] ↦ id`; boards at
`["board", userId, boardId]`; logs at `["log", boardId, date]`;
notifications at `["notif", boardId, notifId]`.  The list-returning
accessors push `entry.value` for every scanned entry; entries of a
different entity kind never occur under these prefixes, so extracting the
matching constructor is exact. -/

def getUserById (st : Store) (id : String) : Option User :=
  match kvGet st ["user", id] with
  | some (.user u) => some u
  | _ => none

def getUserByUsername (st : Store) (username : String) : Option User :=
  match kvGet st ["user_by_username", username] with
  | some (.str id) => getUserById st id
  | _ => none

def setUser (st : Store) (id : String) (u : User) : Store :=
  kvSet (kvSet st ["user", id] (.user u)) ["user_by_username", u.username] (.str id)

def getBoard (st : Store) (userId boardId : String) : Option Board :=
  match kvGet st ["board", userId, boardId] with
  | some (.board b) => some b
  | _ => none

def getBoardsByUserId (st : Store) (userId : String) : List Board :=
  (kvList st ["board", userId]).filterMap (fun e =>
    match e.2 with
    | .board b => some b
    | _ => none)

def setBoard (st : Store) (userId boardId : String) (b : Board) : Store :=
  kvSet st ["board", userId, boardId] (.board b)

def deleteBoard (st : Store) (userId boardId : String) : Store :=
  kvDelete st ["board", userId, boardId]

/-- The loop body of `getPublicBoard`: walk the scanned entries and return
the first whose value has `id === boardId && visibility === "public"`. -/
def findPublicBoard : List (Key × Value) → String → Option Board
  | [], _ => none
  | e :: rest, boardId =>
    match e.2 with
    | .board b =>
      if b.id = boardId ∧ b.visibility = "public" then some b
      else findPublicBoard rest boardId
    | _ => findPublicBoard rest boardId

/-- Function `getPublicBoard` from kv.ts: scan `list({prefix: ["board"]})` — every
board of every owner — and return the first public board with the given id. -/
def getPublicBoard (st : Store) (boardId : String) : Option Board :=
  findPublicBoard (kvList st ["board"]) boardId

def getLog (st : Store) (boardId date : String) : Option Log :=
  match kvGet st ["log", boardId, date] with
  | some (.log l) => some l
  | _ => none

def getLogsByBoardId (st : Store) (boardId : String) : List Log :=
  (kvList st ["log", boardId]).filterMap (fun e =>
    match e.2 with
    | .log l => some l
    | _ => none)

def setLog (st : Store) (boardId date : String) (l : Log) : Store :=
  kvSet st ["log", boardId, date] (.log l)

def deleteLog (st : Store) (boardId date : String) : Store :=
  kvDelete st ["log", boardId, date]

def getNotification (st : Store) (boardId notifId : String) : Option Notification :=
  match kvGet st ["notif", boardId, notifId] with
  | some (.notif n) => some n
  | _ => none

def getNotificationsByBoardId (st : Store) (boardId : String) : List Notification :=
  (kvList st ["notif", boardId]).filterMap (fun e =>
    match e.2 with
    | .notif n => some n
    | _ => none)

def setNotification (st : Store) (boardId notifId : String) (n : Notification) : Store :=
  kvSet st ["notif", boardId, notifId] (.notif n)

def deleteNotification (st : Store) (boardId notifId : String) : Store :=
  kvDelete st ["notif", boardId, notifId]

/-! ## Credential manager (src/utils/crypto.ts)

`hashPassword`/`verifyPassword` call the external bcrypt library and
`generateToken`/`verifyToken` call the external djwt library; the library
internals are not part of the repository, so they are modelled from the
spec (§4.2): a deterministic one-way hash and a signed self-contained
credential `{userId, username, exp}` with a 24-hour lifetime, verified
against the server key and the clock.  Clock values are epoch seconds. -/

/-- Modelled from the spec: `bcrypt.hashSync` (the external bcrypt
dependency of `hashPassword`), abstracted as a deterministic tagging. -/
def hashPassword (password : String) : String :=
  "bcrypt$" ++ password

/-- Modelled from the spec: `bcrypt.compareSync` (the external bcrypt
dependency of `verifyPassword`). -/
def verifyPassword (password hash : String) : Bool :=
  hash == hashPassword password

/-- Modelled from the spec: the HMAC-SHA256 tag the external djwt library
computes over a payload with the server key. -/
def macSig (key : String) (p : JWTPayload) : String :=
  "hmac-sha256(" ++ key ++ "," ++ p.userId ++ "," ++ p.username ++ ","
    ++ toString p.exp ++ ")"

/-- A structurally well-formed JWT: a payload plus a signature string. -/
structure Jwt where
  payload : JWTPayload
  sig : String
deriving Repr, DecidableEq

/-- Modelled from the spec: a candidate token either parses as a JWT or is
malformed (djwt `verify` throws on the latter). -/
inductive TokenInput where
  | malformed
  | wellFormed (j : Jwt)
deriving Repr, DecidableEq

/-- Function `generateToken` from crypto.ts: payload `{userId, username,
exp = now + 60*60*24}`, signed HS256 with the server key (signature via the
spec-modelled `macSig`). -/
def generateToken (key userId username : String) (now : Nat) : Jwt :=
  let p : JWTPayload := ⟨userId, username, now + 60 * 60 * 24⟩
  ⟨p, macSig key p⟩

/-- Function `verifyToken` from crypto.ts: djwt `verify` (spec-modelled: checks the
signature against the server key and that `exp` has not passed, throwing
otherwise) wrapped in a try/catch that returns null.  Total by
construction: every rejection is `none`, never an error. -/
def verifyToken (key : String) (now : Nat) (t : TokenInput) : Option JWTPayload :=
  match t with
  | .malformed => none
  | .wellFormed j =>
    if j.sig = macSig key j.payload ∧ now < j.payload.exp then some j.payload
    else none

/-- Split a character list at every `'.'` (wire-format helper). -/
def splitDots : List Char → List (List Char)
  | [] => [[]]
  | c :: cs =>
    let rest := splitDots cs
    if c = '.' then [] :: rest
    else
      match rest with
      | [] => [[c]]
      | r :: rs => (c :: r) :: rs

/-- Decimal number from a character list, `none` on any non-digit. -/
def natFromChars (cs : List Char) : Option Nat :=
  if cs.isEmpty then none
  else
    cs.foldl (fun acc c =>
      match acc with
      | none => none
      | some n => if c.isDigit then some (n * 10 + (c.toNat - 48)) else none)
      (some 0)

/-- Modelled from the spec: the token wire format (the external djwt
base64 encoding), abstracted as `userId.username.exp.sig`; anything else
is malformed. -/
def decodeToken (s : String) : TokenInput :=
  match splitDots s.data with
  | [uid, uname, expChars, sigChars] =>
    match natFromChars expChars with
    | some e => .wellFormed ⟨⟨String.mk uid, String.mk uname, e⟩, String.mk sigChars⟩
    | none => .malformed
  | _ => .malformed

/-- Function `verifyToken` applied to a raw token string. -/
def verifyTokenStr (key : String) (now : Nat) (s : String) : Option JWTPayload :=
  verifyToken key now (decodeToken s)

/-! ## Authorization gate (src/middleware/authMiddleware.ts) -/

/-- The `authHeader.startsWith("Bearer ")` check, embedded as a
character-list prefix test (kernel-computable). -/
def startsWithBearer (h : String) : Bool :=
  "Bearer ".data.isPrefixOf h.data

/-- Middleware `authMiddleware`: reject (401) when the Authorization header is absent
or lacks the `Bearer ` prefix; otherwise verify `header.substring(7)` and
reject (401) when `verifyToken` returns null.  `some payload` means the
request proceeds with that identity attached to the context. -/
def authMiddleware (key : String) (now : Nat) (authHeader : Option String) :
    Option JWTPayload :=
  match authHeader with
  | none => none
  | some h =>
    if !(startsWithBearer h) then none
    else verifyTokenStr key now (h.drop 7)

/-- A store operation, for tracing which calls a request performs. -/
inductive StoreOp where
  | get (k : Key)
  | put (k : Key)
  | del (k : Key)
  | scan (pfx : Key)
deriving Repr, DecidableEq

/-! ## Route handlers

Each handler is the body of the corresponding Oak route, after body
parsing: it takes the store, the authenticated identity (`ctx.state.userId`
set by `authMiddleware`), the parsed body fields (`Option String` for JS
string fields, so that both an absent field and `""` are falsy), and the
request-time clock/fresh-id values, and returns the new store, the HTTP
status, and the response payload. -/

/-- Result of one handler invocation. -/
structure HResult (α : Type) where
  store : Store
  status : Nat
  body : Option α
deriving Repr, DecidableEq

/-- An owner-scoped route: `authMiddleware` runs first; on rejection the
response is 401 and the handler — the only component that touches the
store — is never invoked, so the store is returned untouched with an empty
operation trace. -/
def withAuth {α : Type} (key : String) (now : Nat) (authHeader : Option String)
    (handler : String → String → Store → HResult α × List StoreOp)
    (st : Store) : HResult α × List StoreOp :=
  match authMiddleware key now authHeader with
  | none => (⟨st, 401, none⟩, [])
  | some payload => handler payload.userId payload.username st

/-- JS truthiness of an optional string body field. -/
def truthyS : Option String → Bool
  | none => false
  | some s => !s.isEmpty

/-! ### src/routes/boards.ts -/

/-- Route `GET /api/boards/:id`: board looked up at `["board", userId, boardId]`
under the caller's own scope; absent → 404 "Board not found". -/
def getBoardRoute (st : Store) (userId boardId : String) : HResult Board :=
  match getBoard st userId boardId with
  | none => ⟨st, 404, none⟩
  | some b => ⟨st, 200, some b⟩

/-- Route `POST /api/boards`: requires truthy `title` and `markdown` (else 400);
fills defaults `visibility="private"`, `schedule="daily"`,
`resetTime="00:00"`, stamps `createdAt = updatedAt = now`, stores under the
caller's scope with a fresh id, responds 201. -/
def postBoards (st : Store) (userId : String)
    (title markdown visibility schedule resetTime : Option String)
    (freshId now : String) : HResult Board :=
  if !(truthyS title) || !(truthyS markdown) then ⟨st, 400, none⟩
  else
    let newBoard : Board :=
      { id := freshId
        userId := userId
        title := title.getD ""
        markdown := markdown.getD ""
        visibility := if truthyS visibility then visibility.getD "" else "private"
        schedule := if truthyS schedule then schedule.getD "" else "daily"
        resetTime := if truthyS resetTime then resetTime.getD "" else "00:00"
        createdAt := now
        updatedAt := now }
    ⟨setBoard st userId freshId newBoard, 201, some newBoard⟩

/-- Route `PUT /api/boards/:id`: 404 when absent from the caller's scope; else
spread `{...board, ...(field && {field}), updatedAt: now}` — truthy body
fields overwrite, falsy ones keep the stored value — and store back. -/
def putBoardRoute (st : Store) (userId boardId : String)
    (title markdown visibility schedule resetTime : Option String)
    (now : String) : HResult Board :=
  match getBoard st userId boardId with
  | none => ⟨st, 404, none⟩
  | some board =>
    let updatedBoard : Board :=
      { board with
        title := if truthyS title then title.getD "" else board.title
        markdown := if truthyS markdown then markdown.getD "" else board.markdown
        visibility := if truthyS visibility then visibility.getD "" else board.visibility
        schedule := if truthyS schedule then schedule.getD "" else board.schedule
        resetTime := if truthyS resetTime then resetTime.getD "" else board.resetTime
        updatedAt := now }
    ⟨setBoard st userId boardId updatedBoard, 200, some updatedBoard⟩

/-- Route `DELETE /api/boards/:id`: 404 when absent from the caller's scope;
else delete and respond 204. -/
def deleteBoardRoute (st : Store) (userId boardId : String) : HResult Board :=
  match getBoard st userId boardId with
  | none => ⟨st, 404, none⟩
  | some _ => ⟨deleteBoard st userId boardId, 204, none⟩

/-- Route `GET /api/public/:boardId` (no `authMiddleware`, no identity
argument): `getPublicBoard`, 404 when it returns null. -/
def getPublicBoardRoute (st : Store) (boardId : String) : HResult Board :=
  match getPublicBoard st boardId with
  | none => ⟨st, 404, none⟩
  | some b => ⟨st, 200, some b⟩

/-! ### src/routes/logs.ts -/

/-- Route `POST /api/logs`: 400 unless `boardId` and `actions` are truthy (an
array is always truthy in JS, so `actions` only needs to be present);
403 unless the board exists under the caller's scope; the log date is the
body `date` or today's date; then upsert at `["log", boardId, logDate]`:
append actions and bump `completedAt` (200) when a record exists, else
create one with a fresh id (201). -/
def postLogs (st : Store) (userId : String)
    (boardIdField : Option String) (actionsField : Option (List LogAction))
    (dateField : Option String) (today nowIso freshId : String) : HResult Log :=
  if !(truthyS boardIdField) || actionsField.isNone then ⟨st, 400, none⟩
  else
    let boardId := boardIdField.getD ""
    let acts := actionsField.getD []
    match getBoard st userId boardId with
    | none => ⟨st, 403, none⟩
    | some _ =>
      let logDate := if truthyS dateField then dateField.getD "" else today
      match getLog st boardId logDate with
      | some existingLog =>
        let updatedLog : Log :=
          { existingLog with
            actions := existingLog.actions ++ acts
            completedAt := nowIso }
        ⟨setLog st boardId logDate updatedLog, 200, some updatedLog⟩
      | none =>
        let newLog : Log :=
          { id := freshId
            boardId := boardId
            userId := userId
            date := logDate
            completedAt := nowIso
            actions := acts }
        ⟨setLog st boardId logDate newLog, 201, some newLog⟩

/-- Route `DELETE /api/logs/:id`: the handler fetches `getBoard(userId, "")`
into an unused variable, then searches `getLogsByBoardId(logId)` — a scan
of `["log", logId]`, i.e. the bare log id placed in the board-id key
position — for a log whose `id` matches; 404 when the search misses, else
an ownership check on the found log's board and the keyed delete. -/
def deleteLogRoute (st : Store) (userId logId : String) : HResult Log :=
  let logs := getLogsByBoardId st logId
  match logs.find? (fun l => l.id == logId) with
  | none => ⟨st, 404, none⟩
  | some foundLog =>
    match getBoard st userId foundLog.boardId with
    | none => ⟨st, 403, none⟩
    | some _ => ⟨deleteLog st foundLog.boardId foundLog.date, 204, none⟩

/-! ### src/routes/notify.ts -/

/-- Route `GET /api/notify/:boardId`: 403 unless the board is the caller's, else
the board's notifications with the dismissed ones filtered out. -/
def getNotifyRoute (st : Store) (userId boardId : String) :
    HResult (List Notification) :=
  match getBoard st userId boardId with
  | none => ⟨st, 403, none⟩
  | some _ =>
    let notifications := getNotificationsByBoardId st boardId
    ⟨st, 200, some (notifications.filter (fun n => !n.dismissed))⟩

/-- Route `POST /api/notify`: 400 unless `boardId`, `message`, `time` are
truthy; 403 unless the board is the caller's; else store the notification
under `["notif", boardId, freshId]` and respond 201. -/
def postNotify (st : Store) (userId : String)
    (boardIdField messageField timeField : Option String)
    (freshId : String) : HResult Notification :=
  if !(truthyS boardIdField) || !(truthyS messageField) || !(truthyS timeField) then
    ⟨st, 400, none⟩
  else
    let boardId := boardIdField.getD ""
    match getBoard st userId boardId with
    | none => ⟨st, 403, none⟩
    | some _ =>
      let newNotification : Notification :=
        { id := freshId
          boardId := boardId
          userId := userId
          message := messageField.getD ""
          time := timeField.getD ""
          dismissed := false }
      ⟨setNotification st boardId freshId newNotification, 201, some newNotification⟩

/-- Route `PATCH /api/notify/:id/dismiss`: the handler searches
`getNotificationsByBoardId("")` — a scan of `["notif", ""]`, i.e. the
scope whose board id is the empty string — for the first entry with
matching `id` and owner; 404 when the search misses, else set
`dismissed := true` and store back. -/
def dismissNotifyRoute (st : Store) (userId notifId : String) :
    HResult Notification :=
  let allNotifications := getNotificationsByBoardId st ""
  match allNotifications.find? (fun n => n.id == notifId && n.userId == userId) with
  | none => ⟨st, 404, none⟩
  | some foundNotif =>
    let updatedNotif : Notification := { foundNotif with dismissed := true }
    ⟨setNotification st foundNotif.boardId notifId updatedNotif, 200, some updatedNotif⟩

/-- Route `DELETE /api/notify/:id`: same empty-string-scope search as dismiss;
404 when it misses, else the keyed delete and 204. -/
def deleteNotifyRoute (st : Store) (userId notifId : String) :
    HResult Notification :=
  let allNotifications := getNotificationsByBoardId st ""
  match allNotifications.find? (fun n => n.id == notifId && n.userId == userId) with
  | none => ⟨st, 404, none⟩
  | some foundNotif => ⟨deleteNotification st foundNotif.boardId notifId, 204, none⟩

/-! ### src/routes/auth.ts -/

/-- The destructuring rest-spread the auth routes apply to a `User` before
responding (binding `passwordHash` to a discarded name and collecting the
rest into `userWithoutPassword`): the serialized user object as an explicit
field list — every field of the stored `User` except `passwordHash`. -/
def omitPasswordHash (u : User) : List (String × String) :=
  [("id", u.id), ("username", u.username), ("createdAt", u.createdAt)]

/-- Route `POST /api/register`: 400 on falsy username/password or password
shorter than 6; 409 when `getUserByUsername` finds an existing user (no
write performed); else hash, store via `setUser` (both the primary record
and the username index) and respond 201 with the user sans hash. -/
def registerRoute (st : Store) (usernameField passwordField : Option String)
    (freshId now : String) : HResult (List (String × String)) :=
  if !(truthyS usernameField) || !(truthyS passwordField) then ⟨st, 400, none⟩
  else
    let username := usernameField.getD ""
    let password := passwordField.getD ""
    if password.length < 6 then ⟨st, 400, none⟩
    else
      match getUserByUsername st username with
      | some _ => ⟨st, 409, none⟩
      | none =>
        let newUser : User := ⟨freshId, username, hashPassword password, now⟩
        ⟨setUser st freshId newUser, 201, some (omitPasswordHash newUser)⟩

/-- Route `POST /api/login`: 400 on falsy fields; 401 when the user is unknown
or the password fails `verifyPassword`; else 200 with a fresh token and
the user sans hash. -/
def loginRoute (st : Store) (usernameField passwordField : Option String)
    (key : String) (now : Nat) : HResult (Jwt × List (String × String)) :=
  if !(truthyS usernameField) || !(truthyS passwordField) then ⟨st, 400, none⟩
  else
    let username := usernameField.getD ""
    let password := passwordField.getD ""
    match getUserByUsername st username with
    | none => ⟨st, 401, none⟩
    | some user =>
      if verifyPassword password user.passwordHash then
        ⟨st, 200,
          some (generateToken key user.id user.username now, omitPasswordHash user)⟩
      else ⟨st, 401, none⟩

/-- Route `GET /api/me`: 404 when the authenticated id has no user record; else
200 with the user sans hash. -/
def getMeRoute (st : Store) (userId : String) : HResult (List (String × String)) :=
  match getUserById st userId with
  | none => ⟨st, 404, none⟩
  | some user => ⟨st, 200, some (omitPasswordHash user)⟩

/-! ## Store lemmas -/

theorem kvGet_kvDelete_self (st : Store) (k : Key) :
    kvGet (kvDelete st k) k = none := by
  induction st with
  | nil => rfl
  | cons e st ih =>
    by_cases h : e.1 = k
    · simpa [kvDelete, h] using ih
    · simpa [kvDelete, kvGet, h] using ih

theorem kvGet_kvDelete_ne (st : Store) (k k' : Key) (h : k' ≠ k) :
    kvGet (kvDelete st k) k' = kvGet st k' := by
  induction st with
  | nil => rfl
  | cons e st ih =>
    by_cases he : e.1 = k
    · simpa [kvDelete, kvGet, he, Ne.symm h] using ih
    · by_cases he' : e.1 = k'
      · simp [kvDelete, kvGet, he, he', h]
      · simpa [kvDelete, kvGet, he, he'] using ih

theorem kvGet_kvSet_self (st : Store) (k : Key) (v : Value) :
    kvGet (kvSet st k v) k = some v := by
  induction st with
  | nil => simp [kvSet, kvGet]
  | cons e st ih =>
    by_cases h : e.1 = k
    · simp [kvSet, kvGet, h]
    · simpa [kvSet, kvGet, h] using ih

theorem kvGet_kvSet_ne (st : Store) (k k' : Key) (v : Value) (h : k' ≠ k) :
    kvGet (kvSet st k v) k' = kvGet st k' := by
  induction st with
  | nil => simp [kvSet, kvGet, Ne.symm h]
  | cons e st ih =>
    by_cases he : e.1 = k
    · simp [kvSet, kvGet, he, Ne.symm h, kvGet_kvDelete_ne st k k' h]
    · by_cases he' : e.1 = k'
      · simp [kvSet, kvGet, he, he', h]
      · simpa [kvSet, kvGet, he, he'] using ih

theorem countKey_kvDelete_self (st : Store) (k : Key) :
    countKey (kvDelete st k) k = 0 := by
  induction st with
  | nil => rfl
  | cons e st ih =>
    by_cases h : e.1 = k
    · simpa [kvDelete, h] using ih
    · simpa [kvDelete, countKey, List.filter_cons, h] using ih

theorem countKey_kvSet_self (st : Store) (k : Key) (v : Value) :
    countKey (kvSet st k v) k = 1 := by
  induction st with
  | nil => simp [kvSet, countKey]
  | cons e st ih =>
    by_cases h : e.1 = k
    · have h0 := countKey_kvDelete_self st k
      simp only [countKey] at h0
      simp [kvSet, countKey, List.filter_cons, h, h0]
    · simpa [kvSet, countKey, List.filter_cons, h] using ih

/-- Lemma: `kvGet` hits are store members. -/
theorem mem_of_kvGet_eq_some (st : Store) (k : Key) (v : Value)
    (h : kvGet st k = some v) : (k, v) ∈ st := by
  induction st with
  | nil => simp [kvGet] at h
  | cons e st ih =>
    by_cases he : e.1 = k
    · simp only [kvGet, he, if_pos] at h
      have he2 : e = (k, v) := by cases e; simp_all
      rw [← he2]
      exact List.mem_cons_self _ _
    · simp only [kvGet, he, if_neg, not_false_iff] at h
      exact List.mem_cons_of_mem _ (ih h)

/-- Membership in a prefix scan. -/
theorem mem_kvList (st : Store) (pfx : Key) (e : Key × Value) :
    e ∈ kvList st pfx ↔
      e ∈ st ∧ pfx.isPrefixOf e.1 ∧ pfx.length < e.1.length := by
  induction st with
  | nil => simp [kvList]
  | cons f st ih =>
    by_cases hf : pfx.isPrefixOf f.1 ∧ pfx.length < f.1.length
    · simp only [kvList, if_pos hf, List.mem_cons, ih]
      constructor
      · rintro (rfl | ⟨h1, h2⟩)
        · exact ⟨Or.inl rfl, hf.1, hf.2⟩
        · exact ⟨Or.inr h1, h2⟩
      · rintro ⟨rfl | h1, h2⟩
        · exact Or.inl rfl
        · exact Or.inr ⟨h1, h2⟩
    · simp only [kvList, if_neg hf, ih, List.mem_cons]
      constructor
      · rintro ⟨h1, h2⟩
        exact ⟨Or.inr h1, h2⟩
      · rintro ⟨rfl | h1, h2⟩
        · exact absurd h2 hf
        · exact ⟨h1, h2⟩

/-! ## Scan-loop lemmas for `getPublicBoard` -/

/-- Whatever the public-board loop returns satisfies its filter. -/
theorem findPublicBoard_sound (l : List (Key × Value)) (boardId : String)
    (b : Board) (h : findPublicBoard l boardId = some b) :
    b.id = boardId ∧ b.visibility = "public" := by
  induction l with
  | nil => simp [findPublicBoard] at h
  | cons e rest ih =>
    cases hv : e.2 with
    | board brd =>
      by_cases hc : brd.id = boardId ∧ brd.visibility = "public"
      · simp only [findPublicBoard, hv, if_pos hc, Option.some.injEq] at h
        exact h ▸ hc
      · simp only [findPublicBoard, hv, if_neg hc] at h
        exact ih h
    | user u => simp only [findPublicBoard, hv] at h; exact ih h
    | str s => simp only [findPublicBoard, hv] at h; exact ih h
    | log lg => simp only [findPublicBoard, hv] at h; exact ih h
    | notif n => simp only [findPublicBoard, hv] at h; exact ih h

/-- The public-board loop misses when nothing satisfies its filter. -/
theorem findPublicBoard_eq_none (l : List (Key × Value)) (boardId : String)
    (h : ∀ e ∈ l, ∀ brd : Board, e.2 = Value.board brd →
      ¬(brd.id = boardId ∧ brd.visibility = "public")) :
    findPublicBoard l boardId = none := by
  induction l with
  | nil => rfl
  | cons e rest ih =>
    have hrest : ∀ f ∈ rest, ∀ brd : Board, f.2 = Value.board brd →
        ¬(brd.id = boardId ∧ brd.visibility = "public") :=
      fun f hf => h f (List.mem_cons_of_mem _ hf)
    cases hv : e.2 with
    | board brd =>
      have := h e (List.mem_cons_self _ _) brd hv
      simp only [findPublicBoard, hv, if_neg this]
      exact ih hrest
    | user u => simp only [findPublicBoard, hv]; exact ih hrest
    | str s => simp only [findPublicBoard, hv]; exact ih hrest
    | log lg => simp only [findPublicBoard, hv]; exact ih hrest
    | notif n => simp only [findPublicBoard, hv]; exact ih hrest

/-- The public-board loop hits when some entry satisfies its filter. -/
theorem findPublicBoard_isSome (l : List (Key × Value)) (boardId : String)
    (e : Key × Value) (brd : Board) (hmem : e ∈ l) (hv : e.2 = Value.board brd)
    (hid : brd.id = boardId) (hvis : brd.visibility = "public") :
    (findPublicBoard l boardId).isSome := by
  induction l with
  | nil => simp at hmem
  | cons f rest ih =>
    rcases List.mem_cons.mp hmem with rfl | hmem'
    · simp [findPublicBoard, hv, hid, hvis]
    · cases hf : f.2 with
      | board brd' =>
        by_cases hc : brd'.id = boardId ∧ brd'.visibility = "public"
        · simp [findPublicBoard, hf, hc]
        · simp only [findPublicBoard, hf, if_neg hc]
          exact ih hmem'
      | user u => simp only [findPublicBoard, hf]; exact ih hmem'
      | str s => simp only [findPublicBoard, hf]; exact ih hmem'
      | log lg => simp only [findPublicBoard, hf]; exact ih hmem'
      | notif n => simp only [findPublicBoard, hf]; exact ih hmem'

/-! ## Claim theorems -/

/-- C5: `verifyToken` never throws: a malformed token, a token whose
signature does not match the server key, and a token whose `exp` is in the
past (even when its signature is valid — the third conjunct makes no
assumption on `j.sig`) all yield the invalid result `none` rather than an
error, and a token issued by `generateToken` that is not yet expired
verifies to the payload `{userId, username, exp = issued + 24h}`. -/
theorem verifyToken_never_throws_and_checks_sig_expiry
    (key uid uname : String) (now issued : Nat) (j : Jwt) :
    verifyToken key now .malformed = none ∧
    (j.sig ≠ macSig key j.payload → verifyToken key now (.wellFormed j) = none) ∧
    (j.payload.exp < now → verifyToken key now (.wellFormed j) = none) ∧
    (now < issued + 60 * 60 * 24 →
      verifyToken key now (.wellFormed (generateToken key uid uname issued)) =
        some ⟨uid, uname, issued + 60 * 60 * 24⟩) := by
  refine ⟨rfl, ?_, ?_, ?_⟩
  · intro h
    simp [verifyToken, h]
  · intro h
    have hlt : ¬ now < j.payload.exp := by omega
    simp [verifyToken, hlt]
  · intro h
    simp [verifyToken, generateToken, h]

/-- Witness for C5 at concrete tokens: a malformed token, a badly signed
token, an expired but validly signed token, and a fresh issued token. -/
theorem verifyToken_never_throws_witness :
    verifyToken "k" 10 .malformed = none ∧
    verifyToken "k" 10 (.wellFormed ⟨⟨"u", "n", 99⟩, "bad"⟩) = none ∧
    verifyToken "k" 10
      (.wellFormed ⟨⟨"u", "n", 3⟩, macSig "k" ⟨"u", "n", 3⟩⟩) = none ∧
    verifyToken "k" 10 (.wellFormed (generateToken "k" "u" "n" 0)) =
      some ⟨"u", "n", 86400⟩ := by
  have h1 := verifyToken_never_throws_and_checks_sig_expiry
    "k" "u" "n" 10 0 ⟨⟨"u", "n", 99⟩, "bad"⟩
  have h2 := verifyToken_never_throws_and_checks_sig_expiry
    "k" "u" "n" 10 0 ⟨⟨"u", "n", 3⟩, macSig "k" ⟨"u", "n", 3⟩⟩
  exact ⟨h1.1, h1.2.1 (by decide), h2.2.2.1 (by decide), h1.2.2.2 (by decide)⟩

/-- C7: for every owner-scoped endpoint (quantified as an arbitrary
handler behind `authMiddleware`), a request whose Authorization header is
absent, lacks the `Bearer ` prefix, or carries a token `verifyToken`
rejects, is answered 401 with the store untouched and an empty store
operation trace — the handler, the only component performing store
get/put/delete/scan calls, is never invoked. -/
theorem authGate_rejects_before_store {α : Type} (key : String) (now : Nat)
    (authHeader : Option String)
    (handler : String → String → Store → HResult α × List StoreOp) (st : Store)
    (h : authHeader = none ∨
      (∃ s, authHeader = some s ∧ startsWithBearer s = false) ∨
      (∃ s, authHeader = some s ∧
        verifyTokenStr key now (s.drop 7) = none)) :
    withAuth key now authHeader handler st = (⟨st, 401, none⟩, []) := by
  rcases h with h | ⟨s, rfl, hs⟩ | ⟨s, rfl, hv⟩
  · subst h; rfl
  · simp [withAuth, authMiddleware, hs]
  · by_cases hs : startsWithBearer s
    · simp [withAuth, authMiddleware, hs, hv]
    · simp [withAuth, authMiddleware, hs]

/-- Witness for C7: all three rejection modes at concrete requests, with a
handler that would write to the store if it were ever invoked. -/
theorem authGate_rejects_before_store_witness :
    (withAuth "k" 0 none
      (fun uid _ st =>
        (⟨kvSet st ["board", uid, "b"] (.str "x"), 200, some 1⟩,
          [StoreOp.put ["board", uid, "b"]]))
      [] = (⟨[], 401, (none : Option Nat)⟩, [])) ∧
    (withAuth "k" 0 (some "Basic abc")
      (fun uid _ st =>
        (⟨kvSet st ["board", uid, "b"] (.str "x"), 200, some 1⟩,
          [StoreOp.put ["board", uid, "b"]]))
      [] = (⟨[], 401, (none : Option Nat)⟩, [])) ∧
    (withAuth "k" 0 (some "Bearer garbage")
      (fun uid _ st =>
        (⟨kvSet st ["board", uid, "b"] (.str "x"), 200, some 1⟩,
          [StoreOp.put ["board", uid, "b"]]))
      [] = (⟨[], 401, (none : Option Nat)⟩, [])) := by
  refine ⟨?_, ?_, ?_⟩
  · exact authGate_rejects_before_store "k" 0 none _ [] (Or.inl rfl)
  · exact authGate_rejects_before_store "k" 0 (some "Basic abc") _ []
      (Or.inr (Or.inl ⟨"Basic abc", rfl, by decide⟩))
  · exact authGate_rejects_before_store "k" 0 (some "Bearer garbage") _ []
      (Or.inr (Or.inr ⟨"Bearer garbage", rfl, by decide⟩))

/-- C2 (failing input, closed): a notification stored at
`["notif", "b1", "n1"]` and owned by the caller `"u1"` exists in the
store, yet `PATCH /api/notify/:id/dismiss` and `DELETE /api/notify/:id`
both answer 404 and leave the store unchanged — their scan prefix
`["notif", ""]` (the empty-string board scope, not a wildcard) matches no
stored entry; likewise a log stored at `["log", "b1", "2024-01-01"]` with
id `"l1"` and an owned board is never found by `DELETE /api/logs/:id`,
whose scan prefix is `["log", "l1"]` (the bare log id in the board-id key
position).  The claim says a record that exists anywhere in the store must
be found and operated on. -/
theorem bareIdScan_misses_existing_records :
    (dismissNotifyRoute
        [(["notif", "b1", "n1"],
          Value.notif ⟨"n1", "b1", "u1", "hello", "10:00", false⟩)]
        "u1" "n1" =
      ⟨[(["notif", "b1", "n1"],
          Value.notif ⟨"n1", "b1", "u1", "hello", "10:00", false⟩)],
        404, none⟩) ∧
    (deleteNotifyRoute
        [(["notif", "b1", "n1"],
          Value.notif ⟨"n1", "b1", "u1", "hello", "10:00", false⟩)]
        "u1" "n1" =
      ⟨[(["notif", "b1", "n1"],
          Value.notif ⟨"n1", "b1", "u1", "hello", "10:00", false⟩)],
        404, none⟩) ∧
    (deleteLogRoute
        [(["board", "u1", "b1"],
          Value.board ⟨"b1", "u1", "T", "md", "private", "daily", "00:00", "c", "c"⟩),
         (["log", "b1", "2024-01-01"],
          Value.log ⟨"l1", "b1", "u1", "2024-01-01", "t0", []⟩)]
        "u1" "l1" =
      ⟨[(["board", "u1", "b1"],
          Value.board ⟨"b1", "u1", "T", "md", "private", "daily", "00:00", "c", "c"⟩),
         (["log", "b1", "2024-01-01"],
          Value.log ⟨"l1", "b1", "u1", "2024-01-01", "t0", []⟩)]
        , 404, none⟩) := by
  refine ⟨?_, ?_, ?_⟩ <;> decide

/-- C3 (counterexample, closed): the board `"b1"` exists, stored under
owner `"alice"`; GET, PUT and DELETE on `/api/boards/b1` by authenticated
user `"bob"` all answer 404 "Board not found", not the 403 authorization
error the claim requires. -/
theorem boardsNotOwned_404_counterexample :
    ((getBoardRoute
        [(["board", "alice", "b1"],
          Value.board ⟨"b1", "alice", "T", "md", "private", "daily", "00:00", "c", "c"⟩)]
        "bob" "b1").status = 404 ∧
      (getBoardRoute
        [(["board", "alice", "b1"],
          Value.board ⟨"b1", "alice", "T", "md", "private", "daily", "00:00", "c", "c"⟩)]
        "bob" "b1").status ≠ 403) ∧
    (putBoardRoute
        [(["board", "alice", "b1"],
          Value.board ⟨"b1", "alice", "T", "md", "private", "daily", "00:00", "c", "c"⟩)]
        "bob" "b1" none none none none none "t").status = 404 ∧
    (deleteBoardRoute
        [(["board", "alice", "b1"],
          Value.board ⟨"b1", "alice", "T", "md", "private", "daily", "00:00", "c", "c"⟩)]
        "bob" "b1").status = 404 := by
  refine ⟨⟨?_, ?_⟩, ?_, ?_⟩ <;> decide

/-- C3 (amended): for every authenticated GET/PUT/DELETE on
`/api/boards/:id` where a board with that id exists under a different
user's scope and none exists under the caller's scope, the response is a
404 not-found with the store untouched — the lookup is keyed by the
caller's id, so a board owned by someone else is simply not located —
matching the notify/log bare-id paths, which also surface the not-owned
condition as 404. -/
theorem boardsNotOwned_404 (st : Store) (userId otherId boardId : String)
    (b : Board)
    (title markdown visibility schedule resetTime : Option String) (now : String)
    (hother : getBoard st otherId boardId = some b)
    (hmine : getBoard st userId boardId = none) :
    getBoardRoute st userId boardId = ⟨st, 404, none⟩ ∧
    putBoardRoute st userId boardId title markdown visibility schedule resetTime now
      = ⟨st, 404, none⟩ ∧
    deleteBoardRoute st userId boardId = ⟨st, 404, none⟩ := by
  refine ⟨?_, ?_, ?_⟩
  · simp [getBoardRoute, hmine]
  · simp [putBoardRoute, hmine]
  · simp [deleteBoardRoute, hmine]

/-- Witness for the amended C3 at a concrete store: alice's board, bob's
request. -/
theorem boardsNotOwned_404_witness :
    getBoardRoute
      [(["board", "alice", "b1"],
        Value.board ⟨"b1", "alice", "T", "md", "private", "daily", "00:00", "c", "c"⟩)]
      "bob" "b1" =
      ⟨[(["board", "alice", "b1"],
          Value.board ⟨"b1", "alice", "T", "md", "private", "daily", "00:00", "c", "c"⟩)],
        404, none⟩ ∧
    putBoardRoute
      [(["board", "alice", "b1"],
        Value.board ⟨"b1", "alice", "T", "md", "private", "daily", "00:00", "c", "c"⟩)]
      "bob" "b1" none none none none none "t" =
      ⟨[(["board", "alice", "b1"],
          Value.board ⟨"b1", "alice", "T", "md", "private", "daily", "00:00", "c", "c"⟩)],
        404, none⟩ ∧
    deleteBoardRoute
      [(["board", "alice", "b1"],
        Value.board ⟨"b1", "alice", "T", "md", "private", "daily", "00:00", "c", "c"⟩)]
      "bob" "b1" =
      ⟨[(["board", "alice", "b1"],
          Value.board ⟨"b1", "alice", "T", "md", "private", "daily", "00:00", "c", "c"⟩)],
        404, none⟩ :=
  boardsNotOwned_404 _ "bob" "alice" "b1"
    ⟨"b1", "alice", "T", "md", "private", "daily", "00:00", "c", "c"⟩
    none none none none none "t" (by decide) (by decide)

/-- C1: POST /api/logs is an upsert keyed by `(boardId, date)`.  For a
board owned by the caller: when no log exists at `(boardId, date)` a new
log with the fresh id and exactly the given actions is stored there and
the status is 201; when one exists, the given actions are appended to the
end of its action list, its `completedAt` becomes the current time, the
record is written back at the same key and the status is 200; in both
cases the store holds exactly one record under `["log", boardId, date]`
afterwards. -/
theorem postLogs_upsert_by_board_date (st : Store) (userId boardId date : String)
    (b : Board) (acts : List LogAction) (today nowIso freshId : String)
    (hb : boardId ≠ "") (hd : date ≠ "")
    (hown : getBoard st userId boardId = some b) :
    (getLog st boardId date = none →
      postLogs st userId (some boardId) (some acts) (some date) today nowIso freshId =
        ⟨setLog st boardId date ⟨freshId, boardId, userId, date, nowIso, acts⟩,
          201, some ⟨freshId, boardId, userId, date, nowIso, acts⟩⟩) ∧
    (∀ l, getLog st boardId date = some l →
      postLogs st userId (some boardId) (some acts) (some date) today nowIso freshId =
        ⟨setLog st boardId date
            { l with actions := l.actions ++ acts, completedAt := nowIso },
          200,
          some { l with actions := l.actions ++ acts, completedAt := nowIso }⟩) ∧
    countKey
      (postLogs st userId (some boardId) (some acts) (some date) today nowIso
        freshId).store ["log", boardId, date] = 1 := by
  have hbe : boardId.isEmpty = false := by
    cases h : boardId.isEmpty
    · rfl
    · exact absurd ((String.isEmpty_iff boardId).mp h) hb
  have hde : date.isEmpty = false := by
    cases h : date.isEmpty
    · rfl
    · exact absurd ((String.isEmpty_iff date).mp h) hd
  refine ⟨?_, ?_, ?_⟩
  · intro hnone
    simp [postLogs, truthyS, hbe, hde, hown, hnone]
  · intro l hsome
    simp [postLogs, truthyS, hbe, hde, hown, hsome]
  · cases hlog : getLog st boardId date
    · simp [postLogs, truthyS, hbe, hde, hown, hlog, setLog, countKey_kvSet_self]
    · simp [postLogs, truthyS, hbe, hde, hown, hlog, setLog, countKey_kvSet_self]

/-- Witness for C1: on a store holding only the caller's board, posting
`[check]` for 2024-01-02 creates the log (201); posting `[done]` for the
same `(boardId, date)` then appends to it (200), and one record is stored
under the key. -/
theorem postLogs_upsert_by_board_date_witness :
    (postLogs
        [(["board", "u1", "b1"],
          Value.board ⟨"b1", "u1", "T", "md", "private", "daily", "00:00", "c", "c"⟩)]
        "u1" (some "b1") (some [⟨"check", none, "09:00"⟩]) (some "2024-01-02")
        "2024-01-09" "now1" "l1" =
      ⟨setLog
          [(["board", "u1", "b1"],
            Value.board ⟨"b1", "u1", "T", "md", "private", "daily", "00:00", "c", "c"⟩)]
          "b1" "2024-01-02"
          ⟨"l1", "b1", "u1", "2024-01-02", "now1", [⟨"check", none, "09:00"⟩]⟩,
        201,
        some ⟨"l1", "b1", "u1", "2024-01-02", "now1", [⟨"check", none, "09:00"⟩]⟩⟩) ∧
    (postLogs
        (setLog
          [(["board", "u1", "b1"],
            Value.board ⟨"b1", "u1", "T", "md", "private", "daily", "00:00", "c", "c"⟩)]
          "b1" "2024-01-02"
          ⟨"l1", "b1", "u1", "2024-01-02", "now1", [⟨"check", none, "09:00"⟩]⟩)
        "u1" (some "b1") (some [⟨"done", none, "21:00"⟩]) (some "2024-01-02")
        "2024-01-09" "now2" "l2" =
      ⟨setLog
          (setLog
            [(["board", "u1", "b1"],
              Value.board ⟨"b1", "u1", "T", "md", "private", "daily", "00:00", "c", "c"⟩)]
            "b1" "2024-01-02"
            ⟨"l1", "b1", "u1", "2024-01-02", "now1", [⟨"check", none, "09:00"⟩]⟩)
          "b1" "2024-01-02"
          ⟨"l1", "b1", "u1", "2024-01-02", "now2",
            [⟨"check", none, "09:00"⟩, ⟨"done", none, "21:00"⟩]⟩,
        200,
        some ⟨"l1", "b1", "u1", "2024-01-02", "now2",
          [⟨"check", none, "09:00"⟩, ⟨"done", none, "21:00"⟩]⟩⟩) ∧
    countKey
      (postLogs
        (setLog
          [(["board", "u1", "b1"],
            Value.board ⟨"b1", "u1", "T", "md", "private", "daily", "00:00", "c", "c"⟩)]
          "b1" "2024-01-02"
          ⟨"l1", "b1", "u1", "2024-01-02", "now1", [⟨"check", none, "09:00"⟩]⟩)
        "u1" (some "b1") (some [⟨"done", none, "21:00"⟩]) (some "2024-01-02")
        "2024-01-09" "now2" "l2").store ["log", "b1", "2024-01-02"] = 1 := by
  have h1 := postLogs_upsert_by_board_date
    [(["board", "u1", "b1"],
      Value.board ⟨"b1", "u1", "T", "md", "private", "daily", "00:00", "c", "c"⟩)]
    "u1" "b1" "2024-01-02"
    ⟨"b1", "u1", "T", "md", "private", "daily", "00:00", "c", "c"⟩
    [⟨"check", none, "09:00"⟩] "2024-01-09" "now1" "l1"
    (by decide) (by decide) (by decide)
  have h2 := postLogs_upsert_by_board_date
    (setLog
      [(["board", "u1", "b1"],
        Value.board ⟨"b1", "u1", "T", "md", "private", "daily", "00:00", "c", "c"⟩)]
      "b1" "2024-01-02"
      ⟨"l1", "b1", "u1", "2024-01-02", "now1", [⟨"check", none, "09:00"⟩]⟩)
    "u1" "b1" "2024-01-02"
    ⟨"b1", "u1", "T", "md", "private", "daily", "00:00", "c", "c"⟩
    [⟨"done", none, "21:00"⟩] "2024-01-09" "now2" "l2"
    (by decide) (by decide) (by decide)
  refine ⟨h1.1 (by decide), ?_, h2.2.2⟩
  exact h2.2.1 ⟨"l1", "b1", "u1", "2024-01-02", "now1", [⟨"check", none, "09:00"⟩]⟩
    (by decide)

/-- C4: `GET /api/public/:boardId` takes no credential (the handler has no
identity argument) and scans every stored board across every owner.
(i) Soundness: whenever it returns a board, that board has the requested
id and `visibility = "public"`, and the route answers 200 with it.
(ii) If every stored board with the requested id is non-public — in
particular when the board is private — the route answers 404 even though
the correct id was supplied.  (iii) If some owner's scope stores a board
with the requested id and `visibility = "public"`, the route answers 200
with a public board carrying that id. -/
theorem publicBoard_lookup_visibility_gate (st : Store) (boardId : String) :
    (∀ b, getPublicBoard st boardId = some b →
      b.id = boardId ∧ b.visibility = "public" ∧
      getPublicBoardRoute st boardId = ⟨st, 200, some b⟩) ∧
    ((∀ e ∈ st, ∀ brd : Board, e.2 = Value.board brd → brd.id = boardId →
        brd.visibility ≠ "public") →
      getPublicBoardRoute st boardId = ⟨st, 404, none⟩) ∧
    (∀ uid bid brd, kvGet st ["board", uid, bid] = some (Value.board brd) →
      brd.id = boardId → brd.visibility = "public" →
      ∃ b', getPublicBoard st boardId = some b' ∧ b'.id = boardId ∧
        b'.visibility = "public" ∧
        getPublicBoardRoute st boardId = ⟨st, 200, some b'⟩) := by
  refine ⟨?_, ?_, ?_⟩
  · intro b h
    have hs := findPublicBoard_sound (kvList st ["board"]) boardId b h
    exact ⟨hs.1, hs.2, by simp [getPublicBoardRoute, h]⟩
  · intro hall
    have hnone : findPublicBoard (kvList st ["board"]) boardId = none := by
      refine findPublicBoard_eq_none _ _ (fun e he brd hv hc => ?_)
      exact hall e ((mem_kvList st ["board"] e).mp he).1 brd hv hc.1 hc.2
    simp [getPublicBoardRoute, getPublicBoard, hnone]
  · intro uid bid brd hget hid hvis
    have hmem : (["board", uid, bid], Value.board brd) ∈ st :=
      mem_of_kvGet_eq_some st _ _ hget
    have hmemList : (["board", uid, bid], Value.board brd) ∈ kvList st ["board"] := by
      refine (mem_kvList st ["board"] _).mpr ⟨hmem, ?_, ?_⟩
      · simp [List.isPrefixOf]
      · simp
    have hsome := findPublicBoard_isSome (kvList st ["board"]) boardId
      (["board", uid, bid], Value.board brd) brd hmemList rfl hid hvis
    obtain ⟨b', hb'⟩ := Option.isSome_iff_exists.mp hsome
    have hs := findPublicBoard_sound (kvList st ["board"]) boardId b' hb'
    exact ⟨b', hb', hs.1, hs.2, by simp [getPublicBoardRoute, getPublicBoard, hb']⟩

/-- Witness for C4: a private board with the requested id yields 404 with
no credential; the same board flipped to public yields 200. -/
theorem publicBoard_lookup_visibility_gate_witness :
    getPublicBoardRoute
      [(["board", "u1", "b1"],
        Value.board ⟨"b1", "u1", "T", "md", "private", "daily", "00:00", "c", "c"⟩)]
      "b1" =
      ⟨[(["board", "u1", "b1"],
          Value.board ⟨"b1", "u1", "T", "md", "private", "daily", "00:00", "c", "c"⟩)],
        404, none⟩ ∧
    ∃ b', getPublicBoard
        [(["board", "u1", "b1"],
          Value.board ⟨"b1", "u1", "T", "md", "public", "daily", "00:00", "c", "c"⟩)]
        "b1" = some b' ∧
      b'.id = "b1" ∧ b'.visibility = "public" ∧
      getPublicBoardRoute
        [(["board", "u1", "b1"],
          Value.board ⟨"b1", "u1", "T", "md", "public", "daily", "00:00", "c", "c"⟩)]
        "b1" =
        ⟨[(["board", "u1", "b1"],
            Value.board ⟨"b1", "u1", "T", "md", "public", "daily", "00:00", "c", "c"⟩)],
          200, some b'⟩ := by
  constructor
  · refine (publicBoard_lookup_visibility_gate
      [(["board", "u1", "b1"],
        Value.board ⟨"b1", "u1", "T", "md", "private", "daily", "00:00", "c", "c"⟩)]
      "b1").2.1 ?_
    intro e he brd hv hid hvis
    have he' := List.mem_singleton.mp he
    subst he'
    injection hv with hb
    subst hb
    exact absurd hvis (by decide)
  · exact (publicBoard_lookup_visibility_gate
      [(["board", "u1", "b1"],
        Value.board ⟨"b1", "u1", "T", "md", "public", "daily", "00:00", "c", "c"⟩)]
      "b1").2.2 "u1" "b1"
      ⟨"b1", "u1", "T", "md", "public", "daily", "00:00", "c", "c"⟩
      (by decide) rfl rfl

/-- C6: registering a username that already has a user fails with 409 and
writes nothing.  After a first successful registration (201) stored both
the primary `["user", id]` record and the `["user_by_username", username]`
index entry, a second registration of the same username returns 409 with
the store exactly equal to the post-first-registration store, so both
entries are unchanged. -/
theorem register_duplicate_conflict (st : Store)
    (uname p1 p2 freshId1 freshId2 t1 t2 : String)
    (hu : uname ≠ "") (hp1 : 6 ≤ p1.length) (hp2 : 6 ≤ p2.length)
    (hnew : getUserByUsername st uname = none) :
    registerRoute st (some uname) (some p1) freshId1 t1 =
      ⟨setUser st freshId1 ⟨freshId1, uname, hashPassword p1, t1⟩, 201,
        some (omitPasswordHash ⟨freshId1, uname, hashPassword p1, t1⟩)⟩ ∧
    kvGet (setUser st freshId1 ⟨freshId1, uname, hashPassword p1, t1⟩)
      ["user", freshId1] = some (.user ⟨freshId1, uname, hashPassword p1, t1⟩) ∧
    kvGet (setUser st freshId1 ⟨freshId1, uname, hashPassword p1, t1⟩)
      ["user_by_username", uname] = some (.str freshId1) ∧
    registerRoute (setUser st freshId1 ⟨freshId1, uname, hashPassword p1, t1⟩)
      (some uname) (some p2) freshId2 t2 =
      ⟨setUser st freshId1 ⟨freshId1, uname, hashPassword p1, t1⟩, 409, none⟩ := by
  have hue : uname.isEmpty = false := by
    cases h : uname.isEmpty
    · rfl
    · exact absurd ((String.isEmpty_iff uname).mp h) hu
  have hp1ne : p1 ≠ "" := by
    intro h
    rw [h] at hp1
    exact absurd hp1 (by decide)
  have hp1e : p1.isEmpty = false := by
    cases h : p1.isEmpty
    · rfl
    · exact absurd ((String.isEmpty_iff p1).mp h) hp1ne
  have hp2ne : p2 ≠ "" := by
    intro h
    rw [h] at hp2
    exact absurd hp2 (by decide)
  have hp2e : p2.isEmpty = false := by
    cases h : p2.isEmpty
    · rfl
    · exact absurd ((String.isEmpty_iff p2).mp h) hp2ne
  have hlt1 : ¬ (p1.length < 6) := by omega
  have hlt2 : ¬ (p2.length < 6) := by omega
  have hneKey : (["user", freshId1] : Key) ≠ ["user_by_username", uname] := by
    intro h
    injection h with h1 _
    exact absurd h1 (by decide)
  have hA : kvGet (setUser st freshId1 ⟨freshId1, uname, hashPassword p1, t1⟩)
      ["user_by_username", uname] = some (.str freshId1) := by
    simp [setUser, kvGet_kvSet_self]
  have hB : kvGet (setUser st freshId1 ⟨freshId1, uname, hashPassword p1, t1⟩)
      ["user", freshId1] = some (.user ⟨freshId1, uname, hashPassword p1, t1⟩) := by
    rw [setUser]
    rw [kvGet_kvSet_ne _ _ _ _ hneKey]
    exact kvGet_kvSet_self _ _ _
  have hdup : getUserByUsername
      (setUser st freshId1 ⟨freshId1, uname, hashPassword p1, t1⟩) uname =
      some ⟨freshId1, uname, hashPassword p1, t1⟩ := by
    simp [getUserByUsername, hA, getUserById, hB]
  refine ⟨?_, hB, hA, ?_⟩
  · simp [registerRoute, truthyS, hue, hp1e, hlt1, hnew]
  · simp [registerRoute, truthyS, hue, hp2e, hlt2, hdup]

/-- Witness for C6: registering "alice" twice on the empty store: first
201 with both entries stored, second 409 with the store unchanged. -/
theorem register_duplicate_conflict_witness :
    registerRoute [] (some "alice") (some "secret1") "id1" "t1" =
      ⟨setUser [] "id1" ⟨"id1", "alice", hashPassword "secret1", "t1"⟩, 201,
        some (omitPasswordHash ⟨"id1", "alice", hashPassword "secret1", "t1"⟩)⟩ ∧
    kvGet (setUser [] "id1" ⟨"id1", "alice", hashPassword "secret1", "t1"⟩)
      ["user", "id1"] =
      some (.user ⟨"id1", "alice", hashPassword "secret1", "t1"⟩) ∧
    kvGet (setUser [] "id1" ⟨"id1", "alice", hashPassword "secret1", "t1"⟩)
      ["user_by_username", "alice"] = some (.str "id1") ∧
    registerRoute (setUser [] "id1" ⟨"id1", "alice", hashPassword "secret1", "t1"⟩)
      (some "alice") (some "secret2") "id2" "t2" =
      ⟨setUser [] "id1" ⟨"id1", "alice", hashPassword "secret1", "t1"⟩, 409, none⟩ :=
  register_duplicate_conflict [] "alice" "secret1" "secret2" "id1" "id2" "t1" "t2"
    (by decide) (by decide) (by decide) (by decide)

/-- C8: create-then-get round-trip.  For every valid board payload (truthy
title and markdown), POST /api/boards responds 201 with a board whose
`createdAt` and `updatedAt` are both the creation time, and an immediate
GET /api/boards/:id by the same owner responds 200 with that exact board
value (equal in every field) while leaving the store unchanged. -/
theorem board_create_then_get_roundtrip (st : Store) (userId : String)
    (title markdown visibility schedule resetTime : Option String)
    (freshId now : String)
    (ht : truthyS title = true) (hm : truthyS markdown = true) :
    (postBoards st userId title markdown visibility schedule resetTime
      freshId now).status = 201 ∧
    ∃ b : Board,
      (postBoards st userId title markdown visibility schedule resetTime
        freshId now).body = some b ∧
      b.id = freshId ∧ b.userId = userId ∧ b.createdAt = now ∧ b.updatedAt = now ∧
      getBoardRoute
        (postBoards st userId title markdown visibility schedule resetTime
          freshId now).store userId freshId =
        ⟨(postBoards st userId title markdown visibility schedule resetTime
            freshId now).store, 200, some b⟩ := by
  refine ⟨?_, ?_⟩
  · simp [postBoards, ht, hm]
  · refine ⟨{ id := freshId
              userId := userId
              title := title.getD ""
              markdown := markdown.getD ""
              visibility := if truthyS visibility then visibility.getD "" else "private"
              schedule := if truthyS schedule then schedule.getD "" else "daily"
              resetTime := if truthyS resetTime then resetTime.getD "" else "00:00"
              createdAt := now
              updatedAt := now }, ?_, rfl, rfl, rfl, rfl, ?_⟩
    · simp [postBoards, ht, hm]
    · simp [postBoards, ht, hm, getBoardRoute, getBoard, setBoard, kvGet_kvSet_self]

/-- Witness for C8 at a concrete payload on the empty store. -/
theorem board_create_then_get_roundtrip_witness :
    (postBoards [] "u1" (some "T") (some "md") none none none "b1" "t0").status
      = 201 ∧
    ∃ b : Board,
      (postBoards [] "u1" (some "T") (some "md") none none none "b1" "t0").body
        = some b ∧
      b.id = "b1" ∧ b.userId = "u1" ∧ b.createdAt = "t0" ∧ b.updatedAt = "t0" ∧
      getBoardRoute
        (postBoards [] "u1" (some "T") (some "md") none none none "b1" "t0").store
        "u1" "b1" =
        ⟨(postBoards [] "u1" (some "T") (some "md") none none none "b1" "t0").store,
          200, some b⟩ :=
  board_create_then_get_roundtrip [] "u1" (some "T") (some "md") none none none
    "b1" "t0" (by decide) (by decide)

/-- C9: frame condition of PUT /api/boards/:id.  For an existing board in
the caller's scope the updated value never changes `id`, `userId` or
`createdAt`; every updatable field that is absent or falsy in the body
keeps its prior value; `updatedAt` becomes the update time; and the
response is a 200 with the updated board written back at the same key. -/
theorem putBoard_frame_condition (st : Store) (userId boardId : String) (b : Board)
    (title markdown visibility schedule resetTime : Option String) (now : String)
    (hb : getBoard st userId boardId = some b) :
    ∃ b' : Board,
      putBoardRoute st userId boardId title markdown visibility schedule resetTime
        now = ⟨setBoard st userId boardId b', 200, some b'⟩ ∧
      b'.id = b.id ∧ b'.userId = b.userId ∧ b'.createdAt = b.createdAt ∧
      b'.updatedAt = now ∧
      (truthyS title = false → b'.title = b.title) ∧
      (truthyS markdown = false → b'.markdown = b.markdown) ∧
      (truthyS visibility = false → b'.visibility = b.visibility) ∧
      (truthyS schedule = false → b'.schedule = b.schedule) ∧
      (truthyS resetTime = false → b'.resetTime = b.resetTime) := by
  refine ⟨{ b with
            title := if truthyS title then title.getD "" else b.title
            markdown := if truthyS markdown then markdown.getD "" else b.markdown
            visibility := if truthyS visibility then visibility.getD "" else b.visibility
            schedule := if truthyS schedule then schedule.getD "" else b.schedule
            resetTime := if truthyS resetTime then resetTime.getD "" else b.resetTime
            updatedAt := now }, ?_, rfl, rfl, rfl, rfl, ?_, ?_, ?_, ?_, ?_⟩
  · simp [putBoardRoute, hb]
  · intro h; simp [h]
  · intro h; simp [h]
  · intro h; simp [h]
  · intro h; simp [h]
  · intro h; simp [h]

/-- Witness for C9: an update supplying only a new title keeps every other
field and bumps `updatedAt`. -/
theorem putBoard_frame_condition_witness :
    ∃ b' : Board,
      putBoardRoute
        [(["board", "u1", "b1"],
          Value.board ⟨"b1", "u1", "T", "md", "private", "daily", "00:00", "c", "c"⟩)]
        "u1" "b1" (some "T2") none none none none "t9" =
        ⟨setBoard
            [(["board", "u1", "b1"],
              Value.board ⟨"b1", "u1", "T", "md", "private", "daily", "00:00", "c", "c"⟩)]
            "u1" "b1" b', 200, some b'⟩ ∧
      b'.id = "b1" ∧ b'.userId = "u1" ∧ b'.createdAt = "c" ∧
      b'.updatedAt = "t9" ∧
      (truthyS (some "T2") = false → b'.title = "T") ∧
      (truthyS none = false → b'.markdown = "md") ∧
      (truthyS none = false → b'.visibility = "private") ∧
      (truthyS none = false → b'.schedule = "daily") ∧
      (truthyS none = false → b'.resetTime = "00:00") :=
  putBoard_frame_condition
    [(["board", "u1", "b1"],
      Value.board ⟨"b1", "u1", "T", "md", "private", "daily", "00:00", "c", "c"⟩)]
    "u1" "b1" ⟨"b1", "u1", "T", "md", "private", "daily", "00:00", "c", "c"⟩
    (some "T2") none none none none "t9" (by decide)

/-- C10: no successful API response carries `passwordHash`.  The
serialized user of POST /api/register, POST /api/login and GET /api/me is
`omitPasswordHash` of the stored `User` — its field list is exactly
`id`, `username`, `createdAt` (each with the stored value) and never
contains a `passwordHash` key: register responds with the user it stores
via `setUser`, login with the user `getUserByUsername` found, and me with
the user `getUserById` found. -/
theorem responses_omit_passwordHash :
    (∀ u : User,
      (omitPasswordHash u).map Prod.fst = ["id", "username", "createdAt"] ∧
      (omitPasswordHash u).map Prod.snd = [u.id, u.username, u.createdAt] ∧
      "passwordHash" ∉ (omitPasswordHash u).map Prod.fst) ∧
    (∀ (st : Store) (uname p : Option String) (freshId now : String),
      truthyS uname = true → truthyS p = true → ¬ ((p.getD "").length < 6) →
      getUserByUsername st (uname.getD "") = none →
      registerRoute st uname p freshId now =
        ⟨setUser st freshId
            ⟨freshId, uname.getD "", hashPassword (p.getD ""), now⟩, 201,
          some (omitPasswordHash
            ⟨freshId, uname.getD "", hashPassword (p.getD ""), now⟩)⟩) ∧
    (∀ (st : Store) (uname p : Option String) (key : String) (tnow : Nat)
        (u : User),
      truthyS uname = true → truthyS p = true →
      getUserByUsername st (uname.getD "") = some u →
      verifyPassword (p.getD "") u.passwordHash = true →
      loginRoute st uname p key tnow =
        ⟨st, 200,
          some (generateToken key u.id u.username tnow, omitPasswordHash u)⟩) ∧
    (∀ (st : Store) (userId : String) (u : User),
      getUserById st userId = some u →
      getMeRoute st userId = ⟨st, 200, some (omitPasswordHash u)⟩) := by
  refine ⟨?_, ?_, ?_, ?_⟩
  · intro u
    refine ⟨rfl, rfl, ?_⟩
    simp [omitPasswordHash]
  · intro st uname p freshId now hu hp hlen hnew
    simp [registerRoute, hu, hp, hlen, hnew]
  · intro st uname p key tnow u hu hp hfound hpw
    simp [loginRoute, hu, hp, hfound, hpw]
  · intro st userId u hfound
    simp [getMeRoute, hfound]

/-- Witness for C10: concrete register, login and me calls against a store
holding the user "alice"; each response is `omitPasswordHash` of the
stored user. -/
theorem responses_omit_passwordHash_witness :
    "passwordHash" ∉
      (omitPasswordHash ⟨"id1", "alice", hashPassword "secret1", "t1"⟩).map
        Prod.fst ∧
    registerRoute [] (some "alice") (some "secret1") "id1" "t1" =
      ⟨setUser [] "id1" ⟨"id1", "alice", hashPassword "secret1", "t1"⟩, 201,
        some (omitPasswordHash ⟨"id1", "alice", hashPassword "secret1", "t1"⟩)⟩ ∧
    loginRoute
      [(["user", "id1"], Value.user ⟨"id1", "alice", hashPassword "secret1", "t1"⟩),
       (["user_by_username", "alice"], Value.str "id1")]
      (some "alice") (some "secret1") "k" 0 =
      ⟨[(["user", "id1"], Value.user ⟨"id1", "alice", hashPassword "secret1", "t1"⟩),
        (["user_by_username", "alice"], Value.str "id1")],
        200,
        some (generateToken "k" "id1" "alice" 0,
          omitPasswordHash ⟨"id1", "alice", hashPassword "secret1", "t1"⟩)⟩ ∧
    getMeRoute
      [(["user", "id1"], Value.user ⟨"id1", "alice", hashPassword "secret1", "t1"⟩)]
      "id1" =
      ⟨[(["user", "id1"], Value.user ⟨"id1", "alice", hashPassword "secret1", "t1"⟩)],
        200,
        some (omitPasswordHash ⟨"id1", "alice", hashPassword "secret1", "t1"⟩)⟩ := by
  refine ⟨(responses_omit_passwordHash.1
    ⟨"id1", "alice", hashPassword "secret1", "t1"⟩).2.2, ?_, ?_, ?_⟩
  · exact responses_omit_passwordHash.2.1 [] (some "alice") (some "secret1")
      "id1" "t1" (by decide) (by decide) (by decide) (by decide)
  · exact responses_omit_passwordHash.2.2.1
      [(["user", "id1"], Value.user ⟨"id1", "alice", hashPassword "secret1", "t1"⟩),
       (["user_by_username", "alice"], Value.str "id1")]
      (some "alice") (some "secret1") "k" 0
      ⟨"id1", "alice", hashPassword "secret1", "t1"⟩
      (by decide) (by decide) (by decide) (by decide)
  · exact responses_omit_passwordHash.2.2.2
      [(["user", "id1"], Value.user ⟨"id1", "alice", hashPassword "secret1", "t1"⟩)]
      "id1" ⟨"id1", "alice", hashPassword "secret1", "t1"⟩ (by decide)

end MarkDash
